import Mathlib

/-!
Verification of the news-headline scraper (src/app.py) against its
specification.  The script fetches one news site's homepage, extracts
headline/link pairs with per-site CSS-selector rules, deduplicates them by
absolute URL, caps the list, and prints it.

The shallow embedding below models the script's own logic faithfully.
HTTP fetching and HTML parsing are external collaborators (spec sections 1
and 6): a parsed document is represented by the document-order list of
nodes matched by the rule's headline selector, each node carrying exactly
the data the extraction loop reads from it (tag name, own `href`
attribute, nearest ancestor `<a>`, visible text).
-/

namespace NewsApp

/-- An `<a>` element as seen by the loop: only its `href` attribute is read
(`link_element.get('href', '')`, src/app.py line 114).  The attribute may be
absent. -/
structure Anchor where
  href : Option String
  deriving DecidableEq

/-- A node matched by the headline selector, carrying the data the loop
reads from it: `element.name` (line 109), the node's own `href` attribute,
the result of `element.find_parent('a')` (line 109), and `element.get_text()`
(line 113). -/
structure Element where
  name : String
  href : Option String
  parentAnchor : Option Anchor
  text : String
  deriving DecidableEq

/-- One entry of `SOURCES_CONFIG` (src/app.py lines 26-76).  `link_filter`
is the per-site pure predicate on a raw href string. -/
structure SourceRule where
  url : String
  headline_selector : String
  link_selector : String
  base_url : String
  link_filter : String → Bool
  max_items : Int

/-- A result record appended to `headlines` (src/app.py lines 125-128). -/
structure HeadlineItem where
  headline : String
  link : String
  deriving DecidableEq

/-- src/app.py line 25. -/
def DEFAULT_MAX_ITEMS : Int := 10

/-- Python `str.startswith`, computed on the character lists underlying the
strings (kernel-reducible, unlike `String.startsWith`). -/
def strStartsWith (s p : String) : Bool := p.data.isPrefixOf s.data

/-- Python `str.strip()`: remove whitespace from both ends. -/
def pyStrip (s : String) : String :=
  String.mk (((s.data.dropWhile Char.isWhitespace).reverse.dropWhile Char.isWhitespace).reverse)

/-- The `'bbc'` entry of `SOURCES_CONFIG` (src/app.py lines 27-34).  The
Python filter `href and href.startswith('/news')` is falsy on the empty
string, hence the explicit non-emptiness conjunct. -/
def bbc_rule : SourceRule :=
  { url := "https://www.bbc.com/news"
    headline_selector := "[data-testid=\"card-headline\"]"
    link_selector := "a[data-testid=\"internal-link\"]"
    base_url := "https://www.bbc.com"
    link_filter := fun href => !(href == "") && strStartsWith href "/news"
    max_items := DEFAULT_MAX_ITEMS }

/-- The `'cnn'` entry of `SOURCES_CONFIG` (src/app.py lines 35-42). -/
def cnn_rule : SourceRule :=
  { url := "https://www.cnn.com"
    headline_selector := ".container__headline"
    link_selector := "a.container__link"
    base_url := "https://www.cnn.com"
    link_filter := fun href => !(href == "") && !strStartsWith href "#"
    max_items := DEFAULT_MAX_ITEMS }

/-- The `'fox'` entry of `SOURCES_CONFIG` (src/app.py lines 43-53). -/
def fox_rule : SourceRule :=
  { url := "https://www.foxnews.com"
    headline_selector := " h3.title a"
    link_selector := "a[href*=\"/politics/\"], a[href*=\"/us/\"], a[href*=\"/world/\"], a[href*=\"/opinion/\"], a[href*=\"/entertainment/\"]"
    base_url := "https://www.foxnews.com"
    link_filter := fun href =>
      !(href == "") && (strStartsWith href "/" || strStartsWith href "https://www.foxnews.com")
    max_items := DEFAULT_MAX_ITEMS }

/-- The `'cbs'` entry of `SOURCES_CONFIG` (src/app.py lines 54-64). -/
def cbs_rule : SourceRule :=
  { url := "https://www.cbsnews.com"
    headline_selector := "h4.item__hed"
    link_selector := "a.item__anchor, a[href*=\"/news/\"], a[href*=\"/politics/\"], a[href*=\"/world/\"]"
    base_url := "https://www.cbsnews.com"
    link_filter := fun href =>
      !(href == "") && (strStartsWith href "/" || strStartsWith href "https://www.cbsnews.com")
    max_items := DEFAULT_MAX_ITEMS }

/-- The `'wsj'` entry of `SOURCES_CONFIG` (src/app.py lines 65-75). -/
def wsj_rule : SourceRule :=
  { url := "https://www.wsj.com"
    headline_selector := "   a"
    link_selector := "a.e1sf124z12 css-1rznr30-CardLink"
    base_url := "https://www.wsj.com"
    link_filter := fun href =>
      !(href == "") && (strStartsWith href "/" || strStartsWith href "https://www.wsj.com")
    max_items := DEFAULT_MAX_ITEMS }

/-- `SOURCES_CONFIG` (src/app.py lines 26-76) as an insertion-ordered
association list; Python dict iteration order is insertion order, which the
error message's key listing relies on. -/
def SOURCES_CONFIG : List (String × SourceRule) :=
  [("bbc", bbc_rule), ("cnn", cnn_rule), ("fox", fox_rule), ("cbs", cbs_rule), ("wsj", wsj_rule)]

/-- `SOURCES_CONFIG.keys()` in insertion order. -/
def sourceKeys : List String := SOURCES_CONFIG.map Prod.fst

/-- The `ValueError` message of src/app.py line 85:
`f"Unsupported news source. Try one of: {', '.join(SOURCES_CONFIG.keys())}"`. -/
def unsupportedMsg : String :=
  "Unsupported news source. Try one of: " ++ String.intercalate ", " sourceKeys

/-- Source lookup (src/app.py lines 83-87): lowercase the identifier, then
index into `SOURCES_CONFIG`; an unknown key raises `ValueError` with
`unsupportedMsg`. -/
def lookup (source : String) : Except String SourceRule :=
  match SOURCES_CONFIG.find? (fun p => p.1 == source.toLower) with
  | some p => Except.ok p.2
  | none => Except.error unsupportedMsg

/-- The effective item cap of src/app.py line 88:
`max_items = max_items or config.get('max_items', 15)`.  Python `or` keeps
the left operand unless it is falsy; for an optional integer the falsy
values are `None` and `0`.  (Every registry entry defines `max_items`, so
the `.get` default `15` is never taken; the field is total here.) -/
def effectiveMaxItems (override : Option Int) (rule : SourceRule) : Int :=
  match override with
  | none => rule.max_items
  | some n => if n = 0 then rule.max_items else n

/-- Split a character list around the first occurrence of `://`, yielding
the scheme characters and the remainder. -/
def schemeSplit : List Char → Option (List Char × List Char)
  | [] => none
  | ':' :: '/' :: '/' :: rest => some ([], rest)
  | c :: rest =>
    match schemeSplit rest with
    | none => none
    | some (a, b) => some (c :: a, b)

/-- Models the external library function `urllib.parse.urljoin` (an
out-of-scope collaborator, spec section 1) for absolute bases of the form
`scheme://host[/path]`: the origin `scheme://host`. -/
def urlOrigin (base : String) : String :=
  match schemeSplit base.data with
  | some (sch, rest) =>
    String.mk (sch ++ [':', '/', '/'] ++ rest.takeWhile (fun c => c ≠ '/'))
  | none => base

/-- The directory portion of a URL path: everything up to and including the
last slash; just `/` when the path is empty or has no slash. -/
def dirOf (path : List Char) : List Char :=
  let d := (path.reverse.dropWhile (fun c => c ≠ '/')).reverse
  if d = [] then ['/'] else d

/-- Models `urljoin`'s resolution base for bare relative hrefs: the origin
plus the directory of the base's path. -/
def urlDir (base : String) : String :=
  match schemeSplit base.data with
  | some (sch, rest) =>
    let host := rest.takeWhile (fun c => c ≠ '/')
    let path := rest.drop host.length
    String.mk (sch ++ [':', '/', '/'] ++ host ++ dirOf path)
  | none => base

/-- The scheme of a base URL, for resolving scheme-relative hrefs. -/
def schemeName (base : String) : String :=
  match schemeSplit base.data with
  | some (sch, _) => String.mk sch
  | none => "https"

/-- Models `urllib.parse.urljoin base href` (src/app.py line 120) for the
href shapes arising here: empty href, absolute `http(s)` URLs,
scheme-relative `//…`, root-relative `/…`, and bare relative paths. -/
def urljoin (base url : String) : String :=
  if url = "" then base
  else if strStartsWith url "http://" || strStartsWith url "https://" then url
  else if strStartsWith url "//" then schemeName base ++ ":" ++ url
  else if strStartsWith url "/" then urlOrigin base ++ url
  else urlDir base ++ url

/-- src/app.py line 109: the element itself when it is an `<a>`, otherwise
its nearest ancestor `<a>` (`element.find_parent('a')`). -/
def link_element (e : Element) : Option Anchor :=
  if e.name = "a" then some { href := e.href } else e.parentAnchor

/-- The extraction loop of src/app.py lines 107-132, with the loop state
(`headlines`, `seen_urls`) passed explicitly.  Python truthiness is made
explicit: the `link_filter` conjunction, `urljoin(...) if href else None`
(line 120), and `if full_url and full_url not in seen_urls` (line 123,
where a `None` or empty-string `full_url` is falsy).  The set `seen_urls`
is modelled as a list used only through membership. -/
def extractLoop (rule : SourceRule) (max_items : Int) :
    List Element → List HeadlineItem → List String → List HeadlineItem
  | [], headlines, _ => headlines
  | element :: rest, headlines, seen_urls =>
    match link_element element with
    | none => extractLoop rule max_items rest headlines seen_urls
    | some le =>
      let headline_text := pyStrip element.text
      let href := le.href.getD ""
      if headline_text = "" ∨ rule.link_filter href = false then
        extractLoop rule max_items rest headlines seen_urls
      else
        let full_url : Option String :=
          if href = "" then none else some (urljoin rule.base_url href)
        match full_url with
        | none => extractLoop rule max_items rest headlines seen_urls
        | some u =>
          if u ≠ "" ∧ u ∉ seen_urls then
            let headlines2 := headlines ++ [{ headline := headline_text, link := u }]
            if (headlines2.length : Int) ≥ max_items then headlines2
            else extractLoop rule max_items rest headlines2 (u :: seen_urls)
          else extractLoop rule max_items rest headlines seen_urls

/-- One extraction run (src/app.py lines 103-132): `headlines = []`,
`seen_urls = set()` are created afresh, then the loop runs over the
selector matches in document order. -/
def extract (rule : SourceRule) (max_items : Int) (elements : List Element) : List HeadlineItem :=
  extractLoop rule max_items elements [] []

/-- The per-node qualification test distilled from one iteration of the
loop (src/app.py lines 108-124), independent of the run state: `some item`
when the node would contribute an item to an empty dedup set, `none` when
the node is skipped for a state-independent reason (no link-bearing
element, empty trimmed text, filter rejection, empty href, empty resolved
URL). -/
def qualifies? (rule : SourceRule) (e : Element) : Option HeadlineItem :=
  match link_element e with
  | none => none
  | some le =>
    let headline_text := pyStrip e.text
    let href := le.href.getD ""
    if headline_text = "" ∨ rule.link_filter href = false then none
    else
      let full_url : Option String :=
        if href = "" then none else some (urljoin rule.base_url href)
      match full_url with
      | none => none
      | some u => if u = "" then none else some { headline := headline_text, link := u }

/-- All qualifying items of a document, in document order, before dedup and
cap. -/
def qualifyingItems (rule : SourceRule) (es : List Element) : List HeadlineItem :=
  es.filterMap (qualifies? rule)

/-- Reference definition following the spec's words (section 4.2,
"result order equals document order of first qualifying occurrence",
dedup by URL): keep the first occurrence of each `link`, given the set of
already-seen URLs. -/
def dedupFirstByLink (seen : List String) : List HeadlineItem → List HeadlineItem
  | [] => []
  | x :: xs =>
    if x.link ∈ seen then dedupFirstByLink seen xs
    else x :: dedupFirstByLink (x.link :: seen) xs

/-- The seen-URL set after scanning a list of items (companion to
`dedupFirstByLink`). -/
def seenAfter (seen : List String) : List HeadlineItem → List String
  | [] => seen
  | x :: xs =>
    if x.link ∈ seen then seenAfter seen xs
    else seenAfter (x.link :: seen) xs

/-- Number of further items the loop will emit when the result already
holds `len` items: `m - len` while the cap is more than one item away, else
exactly one more (the loop checks the cap only after appending,
src/app.py lines 130-132). -/
def capNat (m : Int) (len : Nat) : Nat :=
  if m ≤ (len : Int) + 1 then 1 else (m - (len : Int)).toNat

/-- The `NameError` message produced by evaluating the unresolved global
`world` (src/app.py line 138), as `str(e)` renders it. -/
def worldNameError : String := "name \x27world\x27 is not defined"

/-- The reporter (src/app.py lines 134-139): prints a header, then for each
item prints the numbered headline and a link line.  The link line's first
evaluation of `world.content.utilities.make_clickable_ansi_link` raises
`NameError` because `world` is unresolved, so any non-empty item list
fails on its first iteration; side effects already printed are not
modelled, only success or failure. -/
def reportHeadlines (sourceKey : String) (headlines : List HeadlineItem) :
    Except String (List String) :=
  let header := "\nLatest " ++ sourceKey.toUpper ++ " News Headlines:"
  match headlines with
  | [] => Except.ok [header]
  | _ :: _ => Except.error worldNameError

/-- The `RuntimeError` message of src/app.py line 144 for the reporter's
`NameError`. -/
def scrapeErrMsg : String := "An error occurred while scraping: " ++ worldNameError

/-- The post-fetch body of the `try` block (src/app.py lines 102-139) with
the two `except` clauses of lines 141-144: run extraction, then report; a
non-`RequestException` failure is re-raised as
`RuntimeError("An error occurred while scraping: " + str(e))`. -/
def runAfterFetch (sourceKey : String) (rule : SourceRule) (m : Int)
    (elements : List Element) : Except String (List HeadlineItem) :=
  let headlines := extract rule m elements
  match reportHeadlines sourceKey headlines with
  | Except.ok _ => Except.ok headlines
  | Except.error e => Except.error ("An error occurred while scraping: " ++ e)

/-- The whole run (src/app.py lines 83-144): lookup first (before any
network activity), then the effective cap, then the fetch (modelled by its
outcome `fetched`, whose failure the first `except` clause of line 141
wraps as `RuntimeError("Failed to fetch news: ...")`), then extraction and
reporting. -/
def run (source : String) (override : Option Int)
    (fetched : Except String (List Element)) : Except String (List HeadlineItem) :=
  match lookup source with
  | Except.error msg => Except.error msg
  | Except.ok rule =>
    let m := effectiveMaxItems override rule
    match fetched with
    | Except.error e => Except.error ("Failed to fetch news: " ++ e)
    | Except.ok elements => runAfterFetch source.toLower rule m elements

/-- Two sequential extraction runs on the same document and rule; each run
re-creates `headlines = []` and `seen_urls = set()` (src/app.py lines
103-104), so no state is shared between the runs. -/
def extractTwice (rule : SourceRule) (m : Int) (es : List Element) :
    List HeadlineItem × List HeadlineItem :=
  (extractLoop rule m es [] [], extractLoop rule m es [] [])

/-- Concrete node for the spec's scenario: `<a href="/a">First</a>` inside
`<h1 class="title">`, matched by selector `h1.title a`. -/
def elemA : Element := { name := "a", href := some "/a", parentAnchor := none, text := "First" }

/-- Concrete node: `<a href="/b">Second</a>`. -/
def elemB : Element := { name := "a", href := some "/b", parentAnchor := none, text := "Second" }

/-- Concrete node: a plain `<div>` with text but no ancestor hyperlink. -/
def elemNoLink : Element :=
  { name := "div", href := none, parentAnchor := none, text := "Orphan" }

/-- Concrete node: an `<a>` whose trimmed text is empty. -/
def elemBlank : Element := { name := "a", href := some "/c", parentAnchor := none, text := "  " }

/-- The rule of the spec's scenario (section 8): selector `h1.title a`,
base `https://example.com`, filter `href => href.startsWith("/")`,
`maxItems = 2`. -/
def c4_rule : SourceRule :=
  { url := "https://example.com"
    headline_selector := "h1.title a"
    link_selector := ""
    base_url := "https://example.com"
    link_filter := fun href => strStartsWith href "/"
    max_items := 2 }

/-! ### Structural lemmas about the extraction loop -/

theorem qualifies?_of_link_none {rule : SourceRule} {e : Element}
    (hle : link_element e = none) : qualifies? rule e = none := by
  simp [qualifies?, hle]

theorem qualifies?_of_skip {rule : SourceRule} {e : Element} {le : Anchor}
    (hle : link_element e = some le)
    (h : pyStrip e.text = "" ∨ rule.link_filter (le.href.getD "") = false) :
    qualifies? rule e = none := by
  simp only [qualifies?, hle]
  rw [if_pos h]

theorem qualifies?_of_href_empty {rule : SourceRule} {e : Element} {le : Anchor}
    (hle : link_element e = some le) (h : le.href.getD "" = "") :
    qualifies? rule e = none := by
  simp only [qualifies?, hle, h]
  split <;> simp

theorem qualifies?_of_url_empty {rule : SourceRule} {e : Element} {le : Anchor}
    (hle : link_element e = some le)
    (hhref : le.href.getD "" ≠ "")
    (hu : urljoin rule.base_url (le.href.getD "") = "") :
    qualifies? rule e = none := by
  simp only [qualifies?, hle, if_neg hhref]
  split
  · rfl
  · simp [hu]

theorem qualifies?_some {rule : SourceRule} {e : Element} {le : Anchor}
    (hle : link_element e = some le)
    (hskip : ¬(pyStrip e.text = "" ∨ rule.link_filter (le.href.getD "") = false))
    (hhref : le.href.getD "" ≠ "")
    (hu : urljoin rule.base_url (le.href.getD "") ≠ "") :
    qualifies? rule e =
      some { headline := pyStrip e.text, link := urljoin rule.base_url (le.href.getD "") } := by
  simp only [qualifies?, hle]
  rw [if_neg hskip, if_neg hhref]
  simp [hu]

theorem capNat_pos (m : Int) (len : Nat) : 1 ≤ capNat m len := by
  unfold capNat
  split <;> omega

theorem capNat_eq_one {m : Int} {len : Nat} (h : m ≤ (len : Int) + 1) : capNat m len = 1 := by
  unfold capNat
  rw [if_pos h]

theorem capNat_succ {m : Int} {len : Nat} (h : (len : Int) + 1 < m) :
    capNat m len = capNat m (len + 1) + 1 := by
  unfold capNat
  split_ifs <;> omega

theorem dedupFirstByLink_cons_mem {seen : List String} {x : HeadlineItem}
    {xs : List HeadlineItem} (h : x.link ∈ seen) :
    dedupFirstByLink seen (x :: xs) = dedupFirstByLink seen xs := by
  simp [dedupFirstByLink, h]

theorem dedupFirstByLink_cons_not_mem {seen : List String} {x : HeadlineItem}
    {xs : List HeadlineItem} (h : x.link ∉ seen) :
    dedupFirstByLink seen (x :: xs) = x :: dedupFirstByLink (x.link :: seen) xs := by
  simp [dedupFirstByLink, h]

theorem extractLoop_eq (rule : SourceRule) (m : Int) (es : List Element) :
    ∀ (acc : List HeadlineItem) (seen : List String),
      extractLoop rule m es acc seen =
        acc ++ (dedupFirstByLink seen (qualifyingItems rule es)).take (capNat m acc.length) := by
  induction es with
  | nil => intro acc seen; simp [extractLoop, qualifyingItems, dedupFirstByLink]
  | cons e rest ih =>
    intro acc seen
    cases hle : link_element e with
    | none =>
      simp only [extractLoop, hle]
      rw [ih acc seen]
      simp [qualifyingItems, List.filterMap_cons, qualifies?_of_link_none hle]
    | some le =>
      simp only [extractLoop, hle]
      by_cases hskip : pyStrip e.text = "" ∨ rule.link_filter (le.href.getD "") = false
      · rw [if_pos hskip, ih acc seen]
        simp [qualifyingItems, List.filterMap_cons, qualifies?_of_skip hle hskip]
      · rw [if_neg hskip]
        by_cases hhref : le.href.getD "" = ""
        · simp only [if_pos hhref]
          rw [ih acc seen]
          simp [qualifyingItems, List.filterMap_cons, qualifies?_of_href_empty hle hhref]
        · simp only [if_neg hhref]
          by_cases hu : urljoin rule.base_url (le.href.getD "") = ""
          · have hcond : ¬(urljoin rule.base_url (le.href.getD "") ≠ "" ∧ urljoin rule.base_url (le.href.getD "") ∉ seen) := by simp [hu]
            simp only [if_neg hcond]
            rw [ih acc seen]
            simp [qualifyingItems, List.filterMap_cons, qualifies?_of_url_empty hle hhref hu]
          · have hq : qualifyingItems rule (e :: rest) = { headline := pyStrip e.text, link := urljoin rule.base_url (le.href.getD "") } :: qualifyingItems rule rest := by
              simp [qualifyingItems, List.filterMap_cons, qualifies?_some hle hskip hhref hu]
            by_cases hseen : urljoin rule.base_url (le.href.getD "") ∈ seen
            · have hcond : ¬(urljoin rule.base_url (le.href.getD "") ≠ "" ∧ urljoin rule.base_url (le.href.getD "") ∉ seen) := by simp [hseen]
              simp only [if_neg hcond]
              rw [ih acc seen, hq, dedupFirstByLink_cons_mem hseen]
            · have hcond : urljoin rule.base_url (le.href.getD "") ≠ "" ∧ urljoin rule.base_url (le.href.getD "") ∉ seen := ⟨hu, hseen⟩
              simp only [if_pos hcond]
              rw [hq, dedupFirstByLink_cons_not_mem hseen]
              by_cases hcap : m ≤ (acc.length : Int) + 1
              · have hlen : ((acc ++ [({ headline := pyStrip e.text, link := urljoin rule.base_url (le.href.getD "") } : HeadlineItem)]).length : Int) ≥ m := by
                  simp only [List.length_append, List.length_cons, List.length_nil]
                  push_cast
                  omega
                rw [if_pos hlen, capNat_eq_one hcap]
                simp
              · have hlen : ¬(((acc ++ [({ headline := pyStrip e.text, link := urljoin rule.base_url (le.href.getD "") } : HeadlineItem)]).length : Int) ≥ m) := by
                  simp only [List.length_append, List.length_cons, List.length_nil]
                  push_cast
                  omega
                rw [if_neg hlen, ih (acc ++ [({ headline := pyStrip e.text, link := urljoin rule.base_url (le.href.getD "") } : HeadlineItem)]) (urljoin rule.base_url (le.href.getD "") :: seen)]
                rw [capNat_succ (by omega : ((acc.length : Int) + 1) < m)]
                rw [List.take_succ_cons]
                simp [List.length_append]

theorem capNat_zero (m : Int) : capNat m 0 = max m.toNat 1 := by
  unfold capNat
  split_ifs with h
  · exact (Nat.max_eq_right (by omega)).symm
  · rw [Nat.max_eq_left (by omega)]
    omega

theorem extract_eq (rule : SourceRule) (m : Int) (es : List Element) :
    extract rule m es =
      (dedupFirstByLink [] (qualifyingItems rule es)).take (max m.toNat 1) := by
  unfold extract
  rw [extractLoop_eq]
  simp [capNat_zero]

theorem dedupFirstByLink_append (l₁ l₂ : List HeadlineItem) :
    ∀ seen, dedupFirstByLink seen (l₁ ++ l₂) =
      dedupFirstByLink seen l₁ ++ dedupFirstByLink (seenAfter seen l₁) l₂ := by
  induction l₁ with
  | nil => intro seen; simp [dedupFirstByLink, seenAfter]
  | cons x xs ih =>
    intro seen
    by_cases h : x.link ∈ seen
    · simp [dedupFirstByLink, seenAfter, h, ih seen]
    · simp [dedupFirstByLink, seenAfter, h, ih (x.link :: seen)]

theorem dedupFirstByLink_nodup (l : List HeadlineItem) :
    ∀ seen, (((dedupFirstByLink seen l).map HeadlineItem.link).Nodup) ∧
      ∀ x ∈ dedupFirstByLink seen l, x.link ∉ seen := by
  induction l with
  | nil => intro seen; simp [dedupFirstByLink]
  | cons x xs ih =>
    intro seen
    by_cases h : x.link ∈ seen
    · rw [dedupFirstByLink_cons_mem h]
      exact ih seen
    · rw [dedupFirstByLink_cons_not_mem h]
      obtain ⟨h1, h2⟩ := ih (x.link :: seen)
      refine ⟨?_, ?_⟩
      · rw [List.map_cons, List.nodup_cons]
        refine ⟨?_, h1⟩
        intro hx
        obtain ⟨y, hy, hyl⟩ := List.mem_map.mp hx
        exact h2 y hy (by rw [hyl]; exact List.mem_cons_self _ _)
      · intro y hy
        rcases List.mem_cons.mp hy with rfl | hy2
        · exact h
        · intro hys
          exact h2 y hy2 (List.mem_cons_of_mem _ hys)

theorem mem_of_mem_dedupFirstByLink (l : List HeadlineItem) :
    ∀ seen x, x ∈ dedupFirstByLink seen l → x ∈ l := by
  induction l with
  | nil => intro seen x hx; simp [dedupFirstByLink] at hx
  | cons y ys ih =>
    intro seen x hx
    by_cases h : y.link ∈ seen
    · rw [dedupFirstByLink_cons_mem h] at hx
      exact List.mem_cons_of_mem _ (ih seen x hx)
    · rw [dedupFirstByLink_cons_not_mem h] at hx
      rcases List.mem_cons.mp hx with rfl | hx2
      · exact List.mem_cons_self _ _
      · exact List.mem_cons_of_mem _ (ih (y.link :: seen) x hx2)

theorem qualifies?_some_inv {rule : SourceRule} {e : Element} {x : HeadlineItem}
    (h : qualifies? rule e = some x) : x.headline ≠ "" ∧ x.link ≠ "" := by
  unfold qualifies? at h
  cases hle : link_element e with
  | none => simp only [hle] at h; simp at h
  | some le =>
    simp only [hle] at h
    by_cases hskip : pyStrip e.text = "" ∨ rule.link_filter (le.href.getD "") = false
    · rw [if_pos hskip] at h; simp at h
    · rw [if_neg hskip] at h
      by_cases hhref : le.href.getD "" = ""
      · rw [if_pos hhref] at h; simp at h
      · rw [if_neg hhref] at h
        by_cases hu : urljoin rule.base_url (le.href.getD "") = ""
        · simp [hu] at h
        · simp only [if_neg hu] at h
          obtain rfl := (Option.some_injective _ h).symm
          push_neg at hskip
          exact ⟨hskip.1, hu⟩

theorem extract_mem_props {rule : SourceRule} {m : Int} {es : List Element}
    {x : HeadlineItem} (hx : x ∈ extract rule m es) : x.headline ≠ "" ∧ x.link ≠ "" := by
  rw [extract_eq] at hx
  have hx1 : x ∈ dedupFirstByLink [] (qualifyingItems rule es) := List.take_subset _ _ hx
  have hx2 : x ∈ qualifyingItems rule es := mem_of_mem_dedupFirstByLink _ _ _ hx1
  obtain ⟨e, _, hq⟩ := List.mem_filterMap.mp hx2
  exact qualifies?_some_inv hq

theorem extract_skip {rule : SourceRule} {e : Element} (m : Int) (es₁ es₂ : List Element)
    (h : qualifies? rule e = none) :
    extract rule m (es₁ ++ e :: es₂) = extract rule m (es₁ ++ es₂) := by
  have hq : qualifyingItems rule (es₁ ++ e :: es₂) = qualifyingItems rule (es₁ ++ es₂) := by
    simp [qualifyingItems, List.filterMap_append, List.filterMap_cons, h]
  rw [extract_eq, extract_eq, hq]

/-! ### Claim theorems -/

/-- C1, counterexample: the claim says a non-positive override falls back to
the rule's own `maxItems`, but `max_items or config.get('max_items', 15)`
(src/app.py line 88) only falls back on the falsy values `None` and `0`; the
negative override `-1` is truthy and is honoured, so the effective cap is
`-1`, not the bbc rule's `10`. -/
theorem max_items_override_cex :
    (-1 : Int) ≤ 0 ∧ bbc_rule.max_items = 10 ∧
      effectiveMaxItems (some (-1)) bbc_rule = -1 ∧
      effectiveMaxItems (some (-1)) bbc_rule ≠ bbc_rule.max_items := by
  refine ⟨by norm_num, rfl, rfl, by decide⟩

/-- C1, amended: the effective cap equals the rule's own `maxItems` exactly
when the override is absent or zero; any non-zero override (positive or
negative) is honoured. -/
theorem max_items_override_amended (rule : SourceRule) (n : Int) (h : n ≠ 0) :
    effectiveMaxItems none rule = rule.max_items ∧
    effectiveMaxItems (some 0) rule = rule.max_items ∧
    effectiveMaxItems (some n) rule = n :=
  ⟨rfl, rfl, by simp [effectiveMaxItems, h]⟩

/-- C1, witness for the amended theorem at the bbc rule and override `-1`. -/
theorem max_items_override_amended_witness :
    effectiveMaxItems none bbc_rule = bbc_rule.max_items ∧
    effectiveMaxItems (some 0) bbc_rule = bbc_rule.max_items ∧
    effectiveMaxItems (some (-1)) bbc_rule = -1 :=
  max_items_override_amended bbc_rule (-1) (by norm_num)

/-- C2: the reporting step of a run whose extraction produced at least one
item fails with the `NameError` on the unresolved global `world`
(src/app.py line 138), re-raised by the handler of line 144 as a
`RuntimeError` whose message starts with `An error occurred while
scraping`; with zero items the reporting loop body never runs and the step
succeeds. -/
theorem report_error_spec (k : String) (rule : SourceRule) (m : Int) (es : List Element) :
    runAfterFetch k rule m es =
      (if extract rule m es = [] then Except.ok [] else Except.error scrapeErrMsg) ∧
    strStartsWith scrapeErrMsg "An error occurred while scraping" = true := by
  constructor
  · unfold runAfterFetch
    cases hx : extract rule m es with
    | nil => simp [reportHeadlines, hx]
    | cons a l => simp [reportHeadlines, hx, scrapeErrMsg]
  · decide

/-- C3: after case-insensitive normalization, a supported identifier looks
up exactly the rule registered under that key in `SOURCES_CONFIG`; an
unsupported identifier fails with the `ValueError` message regardless of
the fetch outcome (the check of src/app.py lines 84-85 precedes the fetch
of line 92), and `unsupportedMsg` literally enumerates every valid key. -/
theorem lookup_spec (s : String) (o : Option Int) :
    (if s.toLower ∈ sourceKeys then
       ∃ r, lookup s = Except.ok r ∧ (s.toLower, r) ∈ SOURCES_CONFIG
     else lookup s = Except.error unsupportedMsg ∧
       ∀ fetched, run s o fetched = Except.error unsupportedMsg) ∧
    unsupportedMsg = "Unsupported news source. Try one of: " ++
      String.intercalate ", " sourceKeys := by
  refine ⟨?_, rfl⟩
  split
  · next hmem =>
    have hkey : s.toLower = "bbc" ∨ s.toLower = "cnn" ∨ s.toLower = "fox" ∨
        s.toLower = "cbs" ∨ s.toLower = "wsj" := by
      simpa [sourceKeys, SOURCES_CONFIG] using hmem
    rcases hkey with h | h | h | h | h
    · exact ⟨bbc_rule, by unfold lookup; simp only [h]; rfl, by simp [SOURCES_CONFIG, h]⟩
    · exact ⟨cnn_rule, by unfold lookup; simp only [h]; rfl, by simp [SOURCES_CONFIG, h]⟩
    · exact ⟨fox_rule, by unfold lookup; simp only [h]; rfl, by simp [SOURCES_CONFIG, h]⟩
    · exact ⟨cbs_rule, by unfold lookup; simp only [h]; rfl, by simp [SOURCES_CONFIG, h]⟩
    · exact ⟨wsj_rule, by unfold lookup; simp only [h]; rfl, by simp [SOURCES_CONFIG, h]⟩
  · next hmem =>
    have hf : SOURCES_CONFIG.find? (fun p => p.1 == s.toLower) = none := by
      rw [List.find?_eq_none]
      intro p hp
      simp only [beq_iff_eq]
      intro hc
      exact hmem (List.mem_map.mpr ⟨p, hp, hc⟩)
    refine ⟨by simp [lookup, hf], fun fetched => by simp [run, lookup, hf]⟩

/-- C4: the spec's scenario. Rule `{headlineSelector: "h1.title a",
baseURL: "https://example.com", linkFilter: startsWith "/", maxItems: 2}`
applied to the three matched anchors `/a First`, `/b Second`, `/a First`
yields exactly the two items; the duplicate third node is never reached
because the cap of 2 breaks the loop after the second append. -/
theorem extract_dedup_cap_scenario :
    extract c4_rule (effectiveMaxItems none c4_rule) [elemA, elemB, elemA] =
      [{ headline := "First", link := "https://example.com/a" },
       { headline := "Second", link := "https://example.com/b" }] := by
  decide

/-- C5, counterexample: the claim bounds the result length by the effective
`maxItems` for every run, but the effective cap can be negative (see the C1
counterexample), and the loop checks the cap only after appending
(src/app.py lines 130-132), so with cap `-1` a single qualifying node still
yields one item, and `1 ≤ -1` is false. -/
theorem extract_cap_cex :
    effectiveMaxItems (some (-1)) c4_rule = -1 ∧
    (extract c4_rule (-1) [elemA]).length = 1 ∧
    ¬ (((extract c4_rule (-1) [elemA]).length : Int) ≤ -1) := by
  refine ⟨rfl, by decide, by decide⟩

/-- C5, amended: whenever the effective cap is at least 1 (always the case
unless a negative override is supplied), the result has length at most the
cap, and traversal stops as soon as the cap is reached: extending the
document only ever appends further items (the earlier output is a prefix),
and both outputs are bounded by the cap, so once the cap is reached the
extra nodes contribute nothing. -/
theorem extract_cap_amended (rule : SourceRule) (m : Int) (es extra : List Element)
    (h : 1 ≤ m) :
    ((extract rule m es).length : Int) ≤ m ∧
    ((extract rule m (es ++ extra)).length : Int) ≤ m ∧
    extract rule m (es ++ extra) =
      extract rule m es ++
        (extract rule m (es ++ extra)).drop (extract rule m es).length := by
  have hc : max m.toNat 1 = m.toNat := Nat.max_eq_left (by omega)
  have len1 : (extract rule m es).length ≤ m.toNat := by
    rw [extract_eq, hc]
    exact List.length_take_le _ _
  have len2 : (extract rule m (es ++ extra)).length ≤ m.toNat := by
    rw [extract_eq, hc]
    exact List.length_take_le _ _
  refine ⟨by omega, by omega, ?_⟩
  have hq : qualifyingItems rule (es ++ extra) =
      qualifyingItems rule es ++ qualifyingItems rule extra := by
    simp [qualifyingItems, List.filterMap_append]
  rw [extract_eq rule m (es ++ extra), extract_eq rule m es, hq,
    dedupFirstByLink_append, List.take_append_eq_append_take, List.drop_left]

/-- C5, witness for the amended theorem: cap 1 on a one-node document
extended by a second node. -/
theorem extract_cap_amended_witness :
    ((extract c4_rule 1 [elemA]).length : Int) ≤ 1 ∧
    ((extract c4_rule 1 ([elemA] ++ [elemB])).length : Int) ≤ 1 ∧
    extract c4_rule 1 ([elemA] ++ [elemB]) =
      extract c4_rule 1 [elemA] ++
        (extract c4_rule 1 ([elemA] ++ [elemB])).drop (extract c4_rule 1 [elemA]).length :=
  extract_cap_amended c4_rule 1 [elemA] [elemB] (by norm_num)

/-- C6: no two extracted entries share a `link` (their links are nodup),
and the result is exactly the first-occurrence deduplication of the
qualifying items in document order, truncated at the cap — so the result
order is the document order of each link's first qualifying occurrence. -/
theorem extract_links_nodup_first_occurrence (rule : SourceRule) (m : Int)
    (es : List Element) :
    ((extract rule m es).map HeadlineItem.link).Nodup ∧
    extract rule m es =
      (dedupFirstByLink [] (qualifyingItems rule es)).take (max m.toNat 1) := by
  refine ⟨?_, extract_eq rule m es⟩
  rw [extract_eq, List.map_take]
  exact ((dedupFirstByLink_nodup (qualifyingItems rule es) []).1).sublist
    (List.take_sublist _ _)

/-- C7: every extracted entry has a non-empty (already-trimmed) headline,
and a matched node with empty trimmed text, or whose href the rule's
`linkFilter` rejects, is skipped — removing it from the document leaves the
output unchanged (src/app.py lines 113-117). -/
theorem extract_headline_nonempty_skip (rule : SourceRule) (m : Int)
    (es es₁ es₂ : List Element) (e : Element)
    (h : pyStrip e.text = "" ∨
      ∃ le, link_element e = some le ∧ rule.link_filter (le.href.getD "") = false) :
    (extract rule m es).all (fun x => !(x.headline == "")) = true ∧
    extract rule m (es₁ ++ e :: es₂) = extract rule m (es₁ ++ es₂) := by
  constructor
  · rw [List.all_eq_true]
    intro x hx
    simpa using (extract_mem_props hx).1
  · have hq : qualifies? rule e = none := by
      rcases h with h | ⟨le, hle, hf⟩
      · cases hle2 : link_element e with
        | none => exact qualifies?_of_link_none hle2
        | some le => exact qualifies?_of_skip hle2 (Or.inl h)
      · exact qualifies?_of_skip hle (Or.inr hf)
    exact extract_skip m es₁ es₂ hq

/-- C7, witness: `elemBlank` (trimmed text empty) is skipped, and every
entry extracted from `[elemA]` has a non-empty headline. -/
theorem extract_headline_nonempty_skip_witness :
    (extract c4_rule 2 [elemA]).all (fun x => !(x.headline == "")) = true ∧
    extract c4_rule 2 ([elemA] ++ elemBlank :: [elemB]) =
      extract c4_rule 2 ([elemA] ++ [elemB]) :=
  extract_headline_nonempty_skip c4_rule 2 [elemA] [elemA] [elemB] elemBlank
    (Or.inl (by decide))

/-- C8: extraction never emits an item without a link — every entry's
`link` is non-empty — and a matched node that is not a hyperlink and has no
ancestor hyperlink (src/app.py lines 109-111), or whose href attribute is
the empty string (line 120), is skipped entirely: removing it from the
document leaves the output (and hence the dedup set's effect on later
nodes) unchanged. -/
theorem extract_link_present_skip (rule : SourceRule) (m : Int)
    (es es₁ es₂ : List Element) (e : Element)
    (h : link_element e = none ∨
      ∃ le, link_element e = some le ∧ le.href.getD "" = "") :
    (extract rule m es).all (fun x => !(x.link == "")) = true ∧
    extract rule m (es₁ ++ e :: es₂) = extract rule m (es₁ ++ es₂) := by
  constructor
  · rw [List.all_eq_true]
    intro x hx
    simpa using (extract_mem_props hx).2
  · have hq : qualifies? rule e = none := by
      rcases h with h | ⟨le, hle, h0⟩
      · exact qualifies?_of_link_none h
      · exact qualifies?_of_href_empty hle h0
    exact extract_skip m es₁ es₂ hq

/-- C8, witness: `elemNoLink` (a `div` with no ancestor hyperlink) is
skipped, and every entry extracted from `[elemA]` has a non-empty link. -/
theorem extract_link_present_skip_witness :
    (extract c4_rule 2 [elemA]).all (fun x => !(x.link == "")) = true ∧
    extract c4_rule 2 ([elemA] ++ elemNoLink :: [elemB]) =
      extract c4_rule 2 ([elemA] ++ [elemB]) :=
  extract_link_present_skip c4_rule 2 [elemA] [elemA] [elemB] elemNoLink
    (Or.inl (by decide))

/-- C9: extraction is a pure function of the parsed document and the rule:
two sequential runs, each re-creating `headlines = []` and
`seen_urls = set()` at its start (src/app.py lines 103-104, modelled by
`extractTwice` passing a fresh empty seen-set to each run), produce
identical ordered output. -/
theorem extract_deterministic_fresh_seen (rule : SourceRule) (m : Int)
    (es : List Element) :
    extractTwice rule m es = (extract rule m es, extract rule m es) ∧
    (extractTwice rule m es).1 = (extractTwice rule m es).2 :=
  ⟨rfl, rfl⟩

/-- C10: when the headline selector matches zero nodes the loop body never
runs: extraction returns the empty list, and the whole post-fetch body
(extraction plus reporting) completes without error. -/
theorem extract_empty_selection (rule : SourceRule) (m : Int) (k : String) :
    extract rule m [] = [] ∧ runAfterFetch k rule m [] = Except.ok [] :=
  ⟨rfl, rfl⟩

end NewsApp
